import Mathlib

/-!
Verification of the irrigation-analytics computation engine
(`internal/service/analytics_service.go`) against its specification.

Modelling conventions:
* Go `float64` values are modelled as exact rationals (`ℚ`); the engine's
  arithmetic (sums, ratios, `math.Round(x*10^k)/10^k`) is embedded exactly.
* Go `math.Round` rounds half away from zero; `goRound` below reproduces it.
* Go `int` is `ℤ`, Go `uint` is `ℕ`, Go pointers-as-optionals are `Option`.
* `time.Time` is an abstract type parameter `Time`; the only operation the
  service applies to it, `AddDate(-k, 0, 0)`, is passed in as an abstract
  function `addYears : Time → ℤ → Time`.
* The repository (`IrrigationRepository`) is an external fallible store.
  The service body contains six textual call sites (current window,
  period-comparison −1y/−2y, unscoped breakdown, legacy YoY −1y/−2y);
  each call site's outcome is a field of `FetchResults`.  A deterministic
  unchanged store is the special case where corresponding fields coincide.
* Go map iteration order is unspecified; `calculateSectorBreakdown` takes
  the iteration order of the sector map as an explicit `keyOrder` parameter,
  constrained by `ValidKeyOrder` to be a duplicate-free enumeration of the
  map's keys.
-/

/-- Go `math.Round`: round to the nearest integer, halves away from zero. -/
def goRound (x : ℚ) : ℚ :=
  if x < 0 then -(((Int.floor (-x + 1/2) : ℤ) : ℚ)) else ((Int.floor (x + 1/2) : ℤ) : ℚ)

/-- Go `math.Round(x*100) / 100`: round to 2 decimal places. -/
def round2 (x : ℚ) : ℚ := goRound (x * 100) / 100

/-- Go `math.Round(x*10000) / 10000`: round to 4 decimal places. -/
def round4 (x : ℚ) : ℚ := goRound (x * 10000) / 10000

/-- `calculateEfficiency` from `analytics_service.go`: real/nominal, 0 when
the nominal amount is 0, rounded to 4 decimal places. -/
def calculateEfficiency (realAmount nominalAmount : ℚ) : ℚ :=
  if nominalAmount = 0 then 0
  else round4 (realAmount / nominalAmount)

/-- `calculateChangePercent` from `analytics_service.go`: percentage change
with zero-baseline sentinels, rounded to 2 decimal places. -/
def calculateChangePercent (current previous : ℚ) : ℚ :=
  if previous = 0 then
    if current = 0 then 0 else 100
  else round2 ((current - previous) / previous * 100)

/-- Claim C1: `calculateChangePercent` returns 0 when both arguments are 0,
100 when only the baseline is 0, and otherwise the relative change in percent
rounded to 2 decimal places; in particular 110 vs 100 gives 10, 90 vs 100
gives −10 and 111.111 vs 100 gives 11.11. -/
theorem changePercent_spec (current previous : ℚ) :
    (previous = 0 → current = 0 → calculateChangePercent current previous = 0) ∧
    (previous = 0 → current ≠ 0 → calculateChangePercent current previous = 100) ∧
    (previous ≠ 0 →
      calculateChangePercent current previous =
        round2 ((current - previous) / previous * 100)) ∧
    calculateChangePercent 110 100 = 10 ∧
    calculateChangePercent 90 100 = -10 ∧
    calculateChangePercent (111.111 : ℚ) 100 = (11.11 : ℚ) := by
  refine ⟨fun hp hc => ?_, fun hp hc => ?_, fun hp => ?_, ?_, ?_, ?_⟩
  · simp [calculateChangePercent, hp, hc]
  · simp [calculateChangePercent, hp, hc]
  · simp [calculateChangePercent, hp]
  · norm_num [calculateChangePercent, round2, goRound]
  · norm_num [calculateChangePercent, round2, goRound]
  · norm_num [calculateChangePercent, round2, goRound]

/-- Witness for C1: the generic branch instantiated at (110, 100). -/
theorem changePercent_spec_witness :
    (100 : ℚ) ≠ 0 ∧
      calculateChangePercent 110 100 = round2 ((110 - 100) / 100 * 100) :=
  ⟨by norm_num, (changePercent_spec 110 100).2.2.1 (by norm_num)⟩

/-- Claim C2: `calculateEfficiency` returns 0 whenever the nominal amount is
0, and otherwise real/nominal rounded to 4 decimal places; in particular
efficiency(100.123456, 100) = 1.0012. -/
theorem efficiency_spec (realAmount nominalAmount : ℚ) :
    (nominalAmount = 0 → calculateEfficiency realAmount nominalAmount = 0) ∧
    (nominalAmount ≠ 0 →
      calculateEfficiency realAmount nominalAmount =
        round4 (realAmount / nominalAmount)) ∧
    calculateEfficiency (100.123456 : ℚ) 100 = (1.0012 : ℚ) := by
  refine ⟨fun h => ?_, fun h => ?_, ?_⟩
  · simp [calculateEfficiency, h]
  · simp [calculateEfficiency, h]
  · norm_num [calculateEfficiency, round4, goRound]

/-- Witness for C2: the generic branch instantiated at (100.123456, 100). -/
theorem efficiency_spec_witness :
    (100 : ℚ) ≠ 0 ∧
      calculateEfficiency (100.123456 : ℚ) 100 = round4 ((100.123456 : ℚ) / 100) :=
  ⟨by norm_num, (efficiency_spec (100.123456 : ℚ) 100).2.1 (by norm_num)⟩

/-- Row shape produced by the aggregation queries (`model.IrrigationData`
restricted to the fields the service reads, with `time.Time` abstract). -/
structure IrrigationData (Time : Type) where
  startTime : Time
  waterVolume : ℚ
  duration : ℤ
  farmID : ℕ
  irrigationSectorID : ℕ
  nominalAmount : ℚ
  realAmount : ℚ
  deriving DecidableEq

/-- `repository.AggregatedDataWithCount`: one aggregated bucket plus its
event count. -/
structure AggregatedDataWithCount (Time : Type) where
  data : IrrigationData Time
  eventCount : ℤ
  deriving DecidableEq

/-- `service.PeriodInfo`. -/
structure PeriodInfo (Time : Type) where
  startDate : Time
  endDate : Time
  deriving DecidableEq

/-- `service.AggregatedDataPoint`. -/
structure AggregatedDataPoint (Time : Type) where
  period : Time
  waterVolume : ℚ
  duration : ℤ
  efficiency : ℚ
  eventCount : ℤ
  realAmount : ℚ
  nominalAmount : ℚ
  deriving DecidableEq

/-- `service.AnalyticsSummary`. -/
structure AnalyticsSummary where
  totalWaterVolume : ℚ
  totalDuration : ℤ
  averageEfficiency : ℚ
  totalEvents : ℤ
  totalRealAmount : ℚ
  totalNominalAmount : ℚ
  deriving DecidableEq

/-- Per-bucket efficiency as computed inside `processDataPoints`
(`analytics_service.go:180-190`): plain efficiency, replaced by the
volume/duration fallback when real and nominal are both unset, the water
volume is positive, and the duration is positive. -/
def dataPointEfficiency {Time : Type} (d : IrrigationData Time) : ℚ :=
  let efficiency := calculateEfficiency d.realAmount d.nominalAmount
  if d.realAmount = 0 ∧ d.nominalAmount = 0 ∧ 0 < d.waterVolume then
    if 0 < d.duration then calculateEfficiency d.waterVolume ((d.duration : ℚ) * 1)
    else efficiency
  else efficiency

/-- Per-bucket efficiency as computed inside `calculateSummary`
(`analytics_service.go:224-231`): the fallback fires whenever the computed
efficiency is 0 and water volume and duration are positive.  The same
expression appears verbatim in `calculateSectorBreakdown`
(`analytics_service.go:321-325`). -/
def summaryEfficiency {Time : Type} (d : IrrigationData Time) : ℚ :=
  let efficiency := calculateEfficiency d.realAmount d.nominalAmount
  if efficiency = 0 ∧ 0 < d.waterVolume ∧ 0 < d.duration then
    calculateEfficiency d.waterVolume ((d.duration : ℚ) * 1)
  else efficiency

/-- The duration-based fallback value: water volume against
`duration × 1.0` litres. -/
def fallbackEfficiency {Time : Type} (d : IrrigationData Time) : ℚ :=
  calculateEfficiency d.waterVolume ((d.duration : ℚ) * 1)

/-- `processDataPoints` (`analytics_service.go:175-204`); the Go function
also receives the aggregation string but never reads it. -/
def processDataPoints {Time : Type} (data : List (AggregatedDataWithCount Time)) :
    List (AggregatedDataPoint Time) :=
  data.map (fun item =>
    { period := item.data.startTime
      waterVolume := item.data.waterVolume
      duration := item.data.duration
      efficiency := dataPointEfficiency item.data
      eventCount := item.eventCount
      realAmount := item.data.realAmount
      nominalAmount := item.data.nominalAmount })

/-- Accumulator of the loop in `calculateSummary`
(`analytics_service.go:208-214`). -/
structure SummaryAcc where
  totalWaterVolume : ℚ
  totalDuration : ℤ
  totalEfficiency : ℚ
  efficiencyCount : ℤ
  totalRealAmount : ℚ
  totalNominalAmount : ℚ
  totalEvents : ℤ

/-- One iteration of the loop in `calculateSummary`
(`analytics_service.go:216-237`). -/
def summaryStep {Time : Type} (a : SummaryAcc) (item : AggregatedDataWithCount Time) :
    SummaryAcc :=
  let d := item.data
  let efficiency := summaryEfficiency d
  { totalWaterVolume := a.totalWaterVolume + d.waterVolume
    totalDuration := a.totalDuration + d.duration
    totalRealAmount := a.totalRealAmount + d.realAmount
    totalNominalAmount := a.totalNominalAmount + d.nominalAmount
    totalEvents := a.totalEvents + item.eventCount
    totalEfficiency :=
      if 0 < efficiency then a.totalEfficiency + efficiency else a.totalEfficiency
    efficiencyCount :=
      if 0 < efficiency then a.efficiencyCount + 1 else a.efficiencyCount }

/-- `calculateSummary` (`analytics_service.go:207-252`). -/
def calculateSummary {Time : Type} (data : List (AggregatedDataWithCount Time)) :
    AnalyticsSummary :=
  let acc := data.foldl summaryStep ⟨0, 0, 0, 0, 0, 0, 0⟩
  let avgEfficiency :=
    if 0 < acc.efficiencyCount then acc.totalEfficiency / (acc.efficiencyCount : ℚ) else 0
  { totalWaterVolume := round2 acc.totalWaterVolume
    totalDuration := acc.totalDuration
    averageEfficiency := round4 avgEfficiency
    totalEvents := acc.totalEvents
    totalRealAmount := round2 acc.totalRealAmount
    totalNominalAmount := round2 acc.totalNominalAmount }

/-- Flattened form of the nested fallback conditional in `processDataPoints`. -/
theorem dataPointEfficiency_eq {Time : Type} (d : IrrigationData Time) :
    dataPointEfficiency d =
      if d.realAmount = 0 ∧ d.nominalAmount = 0 ∧ 0 < d.waterVolume ∧ 0 < d.duration
      then fallbackEfficiency d
      else calculateEfficiency d.realAmount d.nominalAmount := by
  unfold dataPointEfficiency fallbackEfficiency
  split_ifs <;> first | rfl | tauto

/-- Claim C3 as stated: in both `processDataPoints` and `calculateSummary`,
the duration-based fallback applies exactly when real and nominal are both 0
and water volume and duration are non-zero. -/
def ClaimC3 : Prop :=
  ∀ (d : IrrigationData Unit),
    (dataPointEfficiency d =
      if d.realAmount = 0 ∧ d.nominalAmount = 0 ∧ d.waterVolume ≠ 0 ∧ d.duration ≠ 0
      then fallbackEfficiency d
      else calculateEfficiency d.realAmount d.nominalAmount) ∧
    (summaryEfficiency d =
      if d.realAmount = 0 ∧ d.nominalAmount = 0 ∧ d.waterVolume ≠ 0 ∧ d.duration ≠ 0
      then fallbackEfficiency d
      else calculateEfficiency d.realAmount d.nominalAmount)

/-- Counterexample to C3: a bucket with real = 0 but nominal = 5, water
volume 10 and duration 10 does not satisfy the claimed condition, yet
`calculateSummary`'s per-bucket efficiency still applies the fallback
(its trigger is computed-efficiency = 0, not real = nominal = 0), giving
1 instead of the claimed 0. -/
theorem fallbackCondition_claim_false : ¬ ClaimC3 := by
  intro h
  have h2 := (h ⟨(), 10, 10, 1, 1, 5, 0⟩).2
  norm_num [summaryEfficiency, fallbackEfficiency, calculateEfficiency,
    round4, goRound] at h2

/-- Claim C3 amended: in `processDataPoints` the fallback applies exactly
when real = 0, nominal = 0, water volume > 0 and duration > 0; in
`calculateSummary` it applies exactly when the computed efficiency is 0 and
water volume > 0 and duration > 0 — a strictly weaker trigger that also
fires when nominal ≠ 0 but the rounded ratio is 0. -/
theorem fallbackCondition_spec {Time : Type}
    (data : List (AggregatedDataWithCount Time)) (d : IrrigationData Time) :
    ((processDataPoints data).map AggregatedDataPoint.efficiency =
      data.map (fun item =>
        if item.data.realAmount = 0 ∧ item.data.nominalAmount = 0 ∧
            0 < item.data.waterVolume ∧ 0 < item.data.duration
        then fallbackEfficiency item.data
        else calculateEfficiency item.data.realAmount item.data.nominalAmount)) ∧
    (summaryEfficiency d =
      if calculateEfficiency d.realAmount d.nominalAmount = 0 ∧
          0 < d.waterVolume ∧ 0 < d.duration
      then fallbackEfficiency d
      else calculateEfficiency d.realAmount d.nominalAmount) := by
  constructor
  · simp only [processDataPoints, List.map_map]
    refine List.map_congr_left fun item _ => ?_
    exact dataPointEfficiency_eq item.data
  · rfl

/-- The per-bucket efficiencies (after the summary fallback) that are
strictly positive — exactly those `calculateSummary` averages. -/
def positiveEfficiencies {Time : Type} (data : List (AggregatedDataWithCount Time)) :
    List ℚ :=
  (data.map (fun item => summaryEfficiency item.data)).filter (fun e => 0 < e)

theorem positiveEfficiencies_cons {Time : Type} (item : AggregatedDataWithCount Time)
    (rest : List (AggregatedDataWithCount Time)) :
    positiveEfficiencies (item :: rest) =
      if 0 < summaryEfficiency item.data
      then summaryEfficiency item.data :: positiveEfficiencies rest
      else positiveEfficiencies rest := by
  simp only [positiveEfficiencies, List.map_cons, List.filter_cons, decide_eq_true_eq]

/-- The summary loop accumulates exactly the sum and the count of the
positive per-bucket efficiencies. -/
theorem summary_fold {Time : Type} (data : List (AggregatedDataWithCount Time)) :
    ∀ a : SummaryAcc,
      (data.foldl summaryStep a).totalEfficiency =
        a.totalEfficiency + (positiveEfficiencies data).sum ∧
      (data.foldl summaryStep a).efficiencyCount =
        a.efficiencyCount + (positiveEfficiencies data).length := by
  induction data with
  | nil => intro a; simp [positiveEfficiencies]
  | cons item rest ih =>
    intro a
    have h := ih (summaryStep a item)
    rw [List.foldl_cons]
    rw [positiveEfficiencies_cons]
    by_cases hp : 0 < summaryEfficiency item.data
    · simp only [if_pos hp, List.sum_cons, List.length_cons]
      refine ⟨?_, ?_⟩
      · rw [h.1]; simp only [summaryStep, if_pos hp]; ring
      · rw [h.2]; simp only [summaryStep, if_pos hp]; push_cast; ring
    · simp only [if_neg hp]
      refine ⟨?_, ?_⟩
      · rw [h.1]; simp only [summaryStep, if_neg hp]
      · rw [h.2]; simp only [summaryStep, if_neg hp]

/-- Claim C4: the summary's average efficiency is the 4-decimal-rounded
arithmetic mean of exactly the strictly positive per-bucket efficiencies
(after fallback); buckets with efficiency 0 count in neither numerator nor
denominator, and with no positive bucket the average is 0. -/
theorem summary_averageEfficiency_spec {Time : Type}
    (data : List (AggregatedDataWithCount Time)) :
    (calculateSummary data).averageEfficiency =
      if positiveEfficiencies data = [] then 0
      else round4 ((positiveEfficiencies data).sum /
        ((positiveEfficiencies data).length : ℚ)) := by
  have h := summary_fold data ⟨0, 0, 0, 0, 0, 0, 0⟩
  have h1 : (List.foldl summaryStep ⟨0, 0, 0, 0, 0, 0, 0⟩ data).totalEfficiency =
      (positiveEfficiencies data).sum := by simpa using h.1
  have h2 : (List.foldl summaryStep ⟨0, 0, 0, 0, 0, 0, 0⟩ data).efficiencyCount =
      ((positiveEfficiencies data).length : ℤ) := by simpa using h.2
  by_cases hn : positiveEfficiencies data = []
  · rw [if_pos hn]
    simp only [calculateSummary, h2, hn, List.length_nil]
    norm_num [round4, goRound]
  · have hlen : 0 < (positiveEfficiencies data).length := List.length_pos.mpr hn
    have hlenZ : (0 : ℤ) < ((positiveEfficiencies data).length : ℤ) := by exact_mod_cast hlen
    rw [if_neg hn]
    simp only [calculateSummary, h1, h2, if_pos hlenZ]
    push_cast
    ring_nf

/-- `service.PeriodMetrics`. -/
structure PeriodMetrics (Time : Type) where
  period : PeriodInfo Time
  totalWaterVolume : ℚ
  totalEvents : ℤ
  averageEfficiency : ℚ
  volumeChangePercent : ℚ
  eventsChangePercent : ℚ
  efficiencyChangePercent : ℚ
  deriving DecidableEq

/-- `service.PeriodComparison`: both entries optional (`omitempty`). -/
structure PeriodComparison (Time : Type) where
  oneYearAgo : Option (PeriodMetrics Time)
  twoYearsAgo : Option (PeriodMetrics Time)
  deriving DecidableEq

/-- `service.SectorBreakdown`. -/
structure SectorBreakdown where
  sectorID : ℕ
  totalWaterVolume : ℚ
  totalEvents : ℤ
  averageEfficiency : ℚ
  totalRealAmount : ℚ
  totalNominalAmount : ℚ
  deriving DecidableEq

/-- `service.YearComparison` (legacy shape). -/
structure YearComparison (Time : Type) where
  period : PeriodInfo Time
  totalWaterVolume : ℚ
  totalDuration : ℤ
  averageEfficiency : ℚ
  totalEvents : ℤ
  changePercent : ℚ
  deriving DecidableEq

/-- `service.YearOverYearComparison`. -/
structure YearOverYearComparison (Time : Type) where
  oneYearAgo : Option (YearComparison Time)
  twoYearsAgo : Option (YearComparison Time)
  deriving DecidableEq

/-- `service.AnalyticsResponse`. -/
structure AnalyticsResponse (Time : Type) where
  farmID : ℕ
  sectorID : Option ℕ
  period : PeriodInfo Time
  aggregation : String
  data : List (AggregatedDataPoint Time)
  summary : AnalyticsSummary
  periodComparison : PeriodComparison Time
  sectorBreakdown : List SectorBreakdown
  yearOverYear : YearOverYearComparison Time
  deriving DecidableEq

/-- Outcomes of the six repository call sites inside one
`GetIrrigationAnalytics` request, in source order: current window
(`go:125`), period-comparison −1y (`go:259`) and −2y (`go:278`),
unscoped breakdown (`go:302`), legacy YoY −1y (`go:363`) and −2y
(`go:382`).  The store is external and fallible, so each call site gets
its own outcome; an unchanged deterministic store is the special case
where the −1y (resp. −2y) outcomes coincide. -/
structure FetchResults (Time : Type) where
  current : Except String (List (AggregatedDataWithCount Time))
  comparisonOneYear : Except String (List (AggregatedDataWithCount Time))
  comparisonTwoYears : Except String (List (AggregatedDataWithCount Time))
  breakdownAll : Except String (List (AggregatedDataWithCount Time))
  yoyOneYear : Except String (List (AggregatedDataWithCount Time))
  yoyTwoYears : Except String (List (AggregatedDataWithCount Time))

/-- The `PeriodMetrics` literal built in `calculatePeriodComparison`
(`analytics_service.go:263-274` and `282-293`). -/
def mkPeriodMetrics {Time : Type} (addYears : Time → ℤ → Time)
    (startDate endDate : Time) (yearsBack : ℤ)
    (currentSummary pastSummary : AnalyticsSummary) : PeriodMetrics Time :=
  { period := ⟨addYears startDate (-yearsBack), addYears endDate (-yearsBack)⟩
    totalWaterVolume := pastSummary.totalWaterVolume
    totalEvents := pastSummary.totalEvents
    averageEfficiency := pastSummary.averageEfficiency
    volumeChangePercent :=
      calculateChangePercent currentSummary.totalWaterVolume pastSummary.totalWaterVolume
    eventsChangePercent :=
      calculateChangePercent (currentSummary.totalEvents : ℚ) (pastSummary.totalEvents : ℚ)
    efficiencyChangePercent :=
      calculateChangePercent currentSummary.averageEfficiency pastSummary.averageEfficiency }

/-- One optional entry of the period comparison: present iff the historical
fetch succeeded with a non-empty bucket list (`err == nil && len(...) > 0`). -/
def periodEntry {Time : Type} (addYears : Time → ℤ → Time)
    (startDate endDate : Time) (yearsBack : ℤ) (currentSummary : AnalyticsSummary)
    (fetch : Except String (List (AggregatedDataWithCount Time))) :
    Option (PeriodMetrics Time) :=
  match fetch with
  | .error _ => none
  | .ok data =>
      if 0 < data.length then
        some (mkPeriodMetrics addYears startDate endDate yearsBack currentSummary
          (calculateSummary data))
      else none

/-- `calculatePeriodComparison` (`analytics_service.go:255-297`), with the
two historical fetch outcomes passed in. -/
def calculatePeriodComparison {Time : Type} (addYears : Time → ℤ → Time)
    (startDate endDate : Time) (currentSummary : AnalyticsSummary)
    (fetchOne fetchTwo : Except String (List (AggregatedDataWithCount Time))) :
    PeriodComparison Time :=
  { oneYearAgo := periodEntry addYears startDate endDate 1 currentSummary fetchOne
    twoYearsAgo := periodEntry addYears startDate endDate 2 currentSummary fetchTwo }

/-- The `YearComparison` literal built in `calculateYearOverYear`
(`analytics_service.go:368-378` and `387-397`). -/
def mkYearComparison {Time : Type} (addYears : Time → ℤ → Time)
    (startDate endDate : Time) (yearsBack : ℤ)
    (currentSummary pastSummary : AnalyticsSummary) : YearComparison Time :=
  { period := ⟨addYears startDate (-yearsBack), addYears endDate (-yearsBack)⟩
    totalWaterVolume := pastSummary.totalWaterVolume
    totalDuration := pastSummary.totalDuration
    averageEfficiency := pastSummary.averageEfficiency
    totalEvents := pastSummary.totalEvents
    changePercent :=
      calculateChangePercent currentSummary.totalWaterVolume pastSummary.totalWaterVolume }

/-- One optional entry of the legacy year-over-year block. -/
def yearEntry {Time : Type} (addYears : Time → ℤ → Time)
    (startDate endDate : Time) (yearsBack : ℤ) (currentSummary : AnalyticsSummary)
    (fetch : Except String (List (AggregatedDataWithCount Time))) :
    Option (YearComparison Time) :=
  match fetch with
  | .error _ => none
  | .ok data =>
      if 0 < data.length then
        some (mkYearComparison addYears startDate endDate yearsBack currentSummary
          (calculateSummary data))
      else none

/-- `calculateYearOverYear` (`analytics_service.go:359-401`), with the two
historical fetch outcomes passed in. -/
def calculateYearOverYear {Time : Type} (addYears : Time → ℤ → Time)
    (startDate endDate : Time) (currentSummary : AnalyticsSummary)
    (fetchOne fetchTwo : Except String (List (AggregatedDataWithCount Time))) :
    YearOverYearComparison Time :=
  { oneYearAgo := yearEntry addYears startDate endDate 1 currentSummary fetchOne
    twoYearsAgo := yearEntry addYears startDate endDate 2 currentSummary fetchTwo }

/-- The fresh map entry created for a sector's first bucket
(`analytics_service.go:320-334`); its initial efficiency uses the same
fallback expression as `calculateSummary`. -/
def newSectorBreakdown {Time : Type} (item : AggregatedDataWithCount Time) :
    SectorBreakdown :=
  { sectorID := item.data.irrigationSectorID
    totalWaterVolume := item.data.waterVolume
    totalEvents := item.eventCount
    averageEfficiency := summaryEfficiency item.data
    totalRealAmount := item.data.realAmount
    totalNominalAmount := item.data.nominalAmount }

/-- The in-place accumulation onto an existing sector entry
(`analytics_service.go:313-318`); the efficiency field is not touched. -/
def updateSectorBreakdown {Time : Type} (b : SectorBreakdown)
    (item : AggregatedDataWithCount Time) : SectorBreakdown :=
  { b with
    totalWaterVolume := b.totalWaterVolume + item.data.waterVolume
    totalEvents := b.totalEvents + item.eventCount
    totalRealAmount := b.totalRealAmount + item.data.realAmount
    totalNominalAmount := b.totalNominalAmount + item.data.nominalAmount }

/-- One iteration of the grouping loop (`analytics_service.go:310-336`),
with the Go map represented as an association list in insertion order. -/
def insertSectorRow {Time : Type} (m : List SectorBreakdown)
    (item : AggregatedDataWithCount Time) : List SectorBreakdown :=
  if m.any (fun b => b.sectorID = item.data.irrigationSectorID) then
    m.map (fun b =>
      if b.sectorID = item.data.irrigationSectorID then updateSectorBreakdown b item else b)
  else m ++ [newSectorBreakdown item]

/-- The fully accumulated sector map (`sectorMap` in the Go source). -/
def buildSectorMap {Time : Type} (data : List (AggregatedDataWithCount Time)) :
    List SectorBreakdown :=
  data.foldl insertSectorRow []

/-- The per-entry post-processing of the output loop
(`analytics_service.go:340-352`): recompute the average efficiency from the
totals only when the total nominal amount is positive, then round. -/
def finalizeSectorBreakdown (b : SectorBreakdown) : SectorBreakdown :=
  let b1 :=
    if 0 < b.totalNominalAmount then
      { b with averageEfficiency := calculateEfficiency b.totalRealAmount b.totalNominalAmount }
    else b
  { b1 with
    totalWaterVolume := round2 b1.totalWaterVolume
    totalRealAmount := round2 b1.totalRealAmount
    totalNominalAmount := round2 b1.totalNominalAmount
    averageEfficiency := round4 b1.averageEfficiency }

/-- `calculateSectorBreakdown` (`analytics_service.go:300-356`).  The Go
output loop ranges over a map, whose iteration order is unspecified;
`keyOrder` is that order, made explicit. -/
def calculateSectorBreakdown {Time : Type}
    (fetch : Except String (List (AggregatedDataWithCount Time)))
    (keyOrder : List ℕ) : List SectorBreakdown :=
  match fetch with
  | .error _ => []
  | .ok data =>
      (keyOrder.filterMap
        (fun k => (buildSectorMap data).find? (fun b => b.sectorID = k))).map
        finalizeSectorBreakdown

/-- A legal Go map iteration order: each key of the sector map exactly once. -/
def ValidKeyOrder {Time : Type} (data : List (AggregatedDataWithCount Time))
    (keyOrder : List ℕ) : Prop :=
  keyOrder.Nodup ∧
    ∀ k, k ∈ keyOrder ↔ k ∈ (buildSectorMap data).map SectorBreakdown.sectorID

/-- The aggregation-level normalization at the top of
`GetIrrigationAnalytics` (`analytics_service.go:117-122`). -/
def normalizeAggregation (aggregation : String) : String :=
  let a := if aggregation = "" then "daily" else aggregation
  if a ≠ "daily" ∧ a ≠ "weekly" ∧ a ≠ "monthly" then "daily" else a

/-- `GetIrrigationAnalytics` (`analytics_service.go:115-160`), with the six
repository call-site outcomes and the map iteration order passed in. -/
def getIrrigationAnalytics {Time : Type} (addYears : Time → ℤ → Time)
    (fetch : FetchResults Time) (keyOrder : List ℕ)
    (farmID : ℕ) (sectorID : Option ℕ) (startDate endDate : Time)
    (aggregation : String) : Except String (AnalyticsResponse Time) :=
  let aggregation1 := normalizeAggregation aggregation
  match fetch.current with
  | .error e => .error e
  | .ok currentData =>
      let dataPoints := processDataPoints currentData
      let summary := calculateSummary currentData
      let periodComparison := calculatePeriodComparison addYears startDate endDate
        summary fetch.comparisonOneYear fetch.comparisonTwoYears
      let sectorBreakdown := match sectorID with
        | none => calculateSectorBreakdown fetch.breakdownAll keyOrder
        | some _ => []
      let yoy := calculateYearOverYear addYears startDate endDate
        summary fetch.yoyOneYear fetch.yoyTwoYears
      .ok { farmID := farmID
            sectorID := sectorID
            period := ⟨startDate, endDate⟩
            aggregation := aggregation1
            data := dataPoints
            summary := summary
            periodComparison := periodComparison
            sectorBreakdown := sectorBreakdown
            yearOverYear := yoy }

/-- Characterization of a failed current-window fetch. -/
theorem getIrrigationAnalytics_error {Time : Type} (addYears : Time → ℤ → Time)
    (fetch : FetchResults Time) (keyOrder : List ℕ) (farmID : ℕ)
    (sectorID : Option ℕ) (startDate endDate : Time) (aggregation : String)
    (msg : String) (hc : fetch.current = .error msg) :
    getIrrigationAnalytics addYears fetch keyOrder farmID sectorID startDate
      endDate aggregation = .error msg := by
  unfold getIrrigationAnalytics
  rw [hc]

/-- Characterization of a successful current-window fetch. -/
theorem getIrrigationAnalytics_ok {Time : Type} (addYears : Time → ℤ → Time)
    (fetch : FetchResults Time) (keyOrder : List ℕ) (farmID : ℕ)
    (sectorID : Option ℕ) (startDate endDate : Time) (aggregation : String)
    (currentData : List (AggregatedDataWithCount Time))
    (hc : fetch.current = .ok currentData) :
    getIrrigationAnalytics addYears fetch keyOrder farmID sectorID startDate
      endDate aggregation =
      .ok { farmID := farmID
            sectorID := sectorID
            period := ⟨startDate, endDate⟩
            aggregation := normalizeAggregation aggregation
            data := processDataPoints currentData
            summary := calculateSummary currentData
            periodComparison := calculatePeriodComparison addYears startDate endDate
              (calculateSummary currentData) fetch.comparisonOneYear fetch.comparisonTwoYears
            sectorBreakdown := match sectorID with
              | none => calculateSectorBreakdown fetch.breakdownAll keyOrder
              | some _ => []
            yearOverYear := calculateYearOverYear addYears startDate endDate
              (calculateSummary currentData) fetch.yoyOneYear fetch.yoyTwoYears } := by
  unfold getIrrigationAnalytics
  rw [hc]

/-- Claim C5: a historical fetch that succeeds with zero buckets leaves the
corresponding comparison entry absent (`none`), in the new-shaped
`period_comparison` and in the legacy `year_over_year` alike. -/
theorem comparison_omitted_on_empty {Time : Type} (addYears : Time → ℤ → Time)
    (fetch : FetchResults Time) (keyOrder : List ℕ) (farmID : ℕ)
    (sectorID : Option ℕ) (startDate endDate : Time) (aggregation : String)
    (r : AnalyticsResponse Time)
    (hr : getIrrigationAnalytics addYears fetch keyOrder farmID sectorID startDate
      endDate aggregation = .ok r) :
    (fetch.comparisonOneYear = .ok [] → r.periodComparison.oneYearAgo = none) ∧
    (fetch.comparisonTwoYears = .ok [] → r.periodComparison.twoYearsAgo = none) ∧
    (fetch.yoyOneYear = .ok [] → r.yearOverYear.oneYearAgo = none) ∧
    (fetch.yoyTwoYears = .ok [] → r.yearOverYear.twoYearsAgo = none) := by
  cases hc : fetch.current with
  | error msg =>
      rw [getIrrigationAnalytics_error addYears fetch keyOrder farmID sectorID
        startDate endDate aggregation msg hc] at hr
      exact absurd hr (by simp)
  | ok currentData =>
      rw [getIrrigationAnalytics_ok addYears fetch keyOrder farmID sectorID
        startDate endDate aggregation currentData hc] at hr
      obtain rfl := (Except.ok.inj hr).symm
      refine ⟨fun h => ?_, fun h => ?_, fun h => ?_, fun h => ?_⟩ <;>
        simp [calculatePeriodComparison, calculateYearOverYear, periodEntry, yearEntry, h]

/-- Claim C6: a failed current-window fetch fails the whole request with the
same error; once the current fetch succeeds the request succeeds, a failed
historical fetch merely leaves its comparison entry absent, and a failed
unscoped breakdown fetch merely leaves the breakdown empty. -/
theorem fetch_error_handling {Time : Type} (addYears : Time → ℤ → Time)
    (fetch : FetchResults Time) (keyOrder : List ℕ) (farmID : ℕ)
    (sectorID : Option ℕ) (startDate endDate : Time) (aggregation : String) :
    (∀ msg, fetch.current = .error msg →
      getIrrigationAnalytics addYears fetch keyOrder farmID sectorID startDate
        endDate aggregation = .error msg) ∧
    (∀ currentData, fetch.current = .ok currentData →
      (getIrrigationAnalytics addYears fetch keyOrder farmID sectorID startDate
        endDate aggregation).toOption.isSome = true) ∧
    (∀ r, getIrrigationAnalytics addYears fetch keyOrder farmID sectorID startDate
        endDate aggregation = .ok r →
      (∀ msg, fetch.comparisonOneYear = .error msg →
        r.periodComparison.oneYearAgo = none) ∧
      (∀ msg, fetch.comparisonTwoYears = .error msg →
        r.periodComparison.twoYearsAgo = none) ∧
      (∀ msg, fetch.yoyOneYear = .error msg → r.yearOverYear.oneYearAgo = none) ∧
      (∀ msg, fetch.yoyTwoYears = .error msg → r.yearOverYear.twoYearsAgo = none) ∧
      (sectorID = none → ∀ msg, fetch.breakdownAll = .error msg →
        r.sectorBreakdown = [])) := by
  refine ⟨fun msg hc => ?_, fun currentData hc => ?_, fun r hr => ?_⟩
  · exact getIrrigationAnalytics_error addYears fetch keyOrder farmID sectorID
      startDate endDate aggregation msg hc
  · rw [getIrrigationAnalytics_ok addYears fetch keyOrder farmID sectorID
      startDate endDate aggregation currentData hc]
    rfl
  · cases hc : fetch.current with
    | error msg =>
        rw [getIrrigationAnalytics_error addYears fetch keyOrder farmID sectorID
          startDate endDate aggregation msg hc] at hr
        exact absurd hr (by simp)
    | ok currentData =>
        rw [getIrrigationAnalytics_ok addYears fetch keyOrder farmID sectorID
          startDate endDate aggregation currentData hc] at hr
        obtain rfl := (Except.ok.inj hr).symm
        refine ⟨fun msg h => ?_, fun msg h => ?_, fun msg h => ?_, fun msg h => ?_,
          fun hs msg h => ?_⟩
        · simp [calculatePeriodComparison, periodEntry, h]
        · simp [calculatePeriodComparison, periodEntry, h]
        · simp [calculateYearOverYear, yearEntry, h]
        · simp [calculateYearOverYear, yearEntry, h]
        · subst hs; simp [calculateSectorBreakdown, h]

/-- The new-shaped and legacy-shaped comparison entries computed from the
same fetched data agree: present together, same shifted period, same
totals, and the legacy change percent is the volume change percent. -/
theorem entries_agree {Time : Type} (addYears : Time → ℤ → Time)
    (startDate endDate : Time) (yearsBack : ℤ) (currentSummary : AnalyticsSummary)
    (f : Except String (List (AggregatedDataWithCount Time))) :
    ((periodEntry addYears startDate endDate yearsBack currentSummary f).isSome =
      (yearEntry addYears startDate endDate yearsBack currentSummary f).isSome) ∧
    (∀ pm yc, periodEntry addYears startDate endDate yearsBack currentSummary f = some pm →
      yearEntry addYears startDate endDate yearsBack currentSummary f = some yc →
      yc.period = pm.period ∧ yc.totalWaterVolume = pm.totalWaterVolume ∧
      yc.totalEvents = pm.totalEvents ∧ yc.averageEfficiency = pm.averageEfficiency ∧
      yc.changePercent = pm.volumeChangePercent) := by
  cases f with
  | error msg => simp [periodEntry, yearEntry]
  | ok data =>
      by_cases h : 0 < data.length
      · simp only [periodEntry, yearEntry, if_pos h, Option.isSome_some, Option.some.injEq,
          true_and]
        rintro pm yc rfl rfl
        exact ⟨rfl, rfl, rfl, rfl, rfl⟩
      · simp [periodEntry, yearEntry, h]

/-- Claim C7: over an unchanged deterministic store (the legacy fetch sees
the same outcome as the period-comparison fetch), each legacy
`year_over_year` entry is present exactly when the matching
`period_comparison` entry is, and the two agree on the shifted period, the
totals and the (volume) change percent. -/
theorem yoy_matches_periodComparison {Time : Type} (addYears : Time → ℤ → Time)
    (fetch : FetchResults Time) (keyOrder : List ℕ) (farmID : ℕ)
    (sectorID : Option ℕ) (startDate endDate : Time) (aggregation : String)
    (r : AnalyticsResponse Time)
    (hdet1 : fetch.yoyOneYear = fetch.comparisonOneYear)
    (hdet2 : fetch.yoyTwoYears = fetch.comparisonTwoYears)
    (hr : getIrrigationAnalytics addYears fetch keyOrder farmID sectorID startDate
      endDate aggregation = .ok r) :
    (r.periodComparison.oneYearAgo.isSome = r.yearOverYear.oneYearAgo.isSome) ∧
    (∀ pm yc, r.periodComparison.oneYearAgo = some pm →
      r.yearOverYear.oneYearAgo = some yc →
      yc.period = pm.period ∧ yc.totalWaterVolume = pm.totalWaterVolume ∧
      yc.totalEvents = pm.totalEvents ∧ yc.averageEfficiency = pm.averageEfficiency ∧
      yc.changePercent = pm.volumeChangePercent) ∧
    (r.periodComparison.twoYearsAgo.isSome = r.yearOverYear.twoYearsAgo.isSome) ∧
    (∀ pm yc, r.periodComparison.twoYearsAgo = some pm →
      r.yearOverYear.twoYearsAgo = some yc →
      yc.period = pm.period ∧ yc.totalWaterVolume = pm.totalWaterVolume ∧
      yc.totalEvents = pm.totalEvents ∧ yc.averageEfficiency = pm.averageEfficiency ∧
      yc.changePercent = pm.volumeChangePercent) := by
  cases hc : fetch.current with
  | error msg =>
      rw [getIrrigationAnalytics_error addYears fetch keyOrder farmID sectorID
        startDate endDate aggregation msg hc] at hr
      exact absurd hr (by simp)
  | ok currentData =>
      rw [getIrrigationAnalytics_ok addYears fetch keyOrder farmID sectorID
        startDate endDate aggregation currentData hc] at hr
      obtain rfl := (Except.ok.inj hr).symm
      have h1 := entries_agree addYears startDate endDate 1
        (calculateSummary currentData) fetch.comparisonOneYear
      have h2 := entries_agree addYears startDate endDate 2
        (calculateSummary currentData) fetch.comparisonTwoYears
      refine ⟨?_, ?_, ?_, ?_⟩
      · simpa [calculatePeriodComparison, calculateYearOverYear, hdet1] using h1.1
      · intro pm yc hpm hyc
        exact h1.2 pm yc hpm (by simpa [calculateYearOverYear, hdet1] using hyc)
      · simpa [calculatePeriodComparison, calculateYearOverYear, hdet2] using h2.1
      · intro pm yc hpm hyc
        exact h2.2 pm yc hpm (by simpa [calculateYearOverYear, hdet2] using hyc)

/-- Claim C10: a successful response echoes the request scope unchanged:
farm id, optional sector id, and both period bounds verbatim. -/
theorem response_echoes_request {Time : Type} (addYears : Time → ℤ → Time)
    (fetch : FetchResults Time) (keyOrder : List ℕ) (farmID : ℕ)
    (sectorID : Option ℕ) (startDate endDate : Time) (aggregation : String)
    (r : AnalyticsResponse Time)
    (hr : getIrrigationAnalytics addYears fetch keyOrder farmID sectorID startDate
      endDate aggregation = .ok r) :
    r.farmID = farmID ∧ r.sectorID = sectorID ∧
    r.period.startDate = startDate ∧ r.period.endDate = endDate := by
  cases hc : fetch.current with
  | error msg =>
      rw [getIrrigationAnalytics_error addYears fetch keyOrder farmID sectorID
        startDate endDate aggregation msg hc] at hr
      exact absurd hr (by simp)
  | ok currentData =>
      rw [getIrrigationAnalytics_ok addYears fetch keyOrder farmID sectorID
        startDate endDate aggregation currentData hc] at hr
      obtain rfl := (Except.ok.inj hr).symm
      exact ⟨rfl, rfl, rfl, rfl⟩

theorem round2_zero : round2 0 = 0 := by norm_num [round2, goRound]

theorem round4_zero : round4 0 = 0 := by norm_num [round4, goRound]

/-- Summary of an empty bucket list: all totals zero, average zero. -/
theorem calculateSummary_nil {Time : Type} :
    calculateSummary ([] : List (AggregatedDataWithCount Time)) = ⟨0, 0, 0, 0, 0, 0⟩ := by
  simp [calculateSummary, round2_zero, round4_zero]

/-- Fixture: every fetch succeeds with zero buckets. -/
def fetchEmptyHist : FetchResults Unit :=
  ⟨.ok [], .ok [], .ok [], .ok [], .ok [], .ok []⟩

/-- The response computed for `fetchEmptyHist`. -/
def emptyResp : AnalyticsResponse Unit :=
  ⟨1, none, ⟨(), ()⟩, "daily", [], ⟨0, 0, 0, 0, 0, 0⟩, ⟨none, none⟩, [], ⟨none, none⟩⟩

theorem getIA_fetchEmptyHist :
    getIrrigationAnalytics (fun t _ => t) fetchEmptyHist [] 1 none () () "daily" =
      .ok emptyResp := by
  rw [getIrrigationAnalytics_ok (fun t _ => t) fetchEmptyHist [] 1 none () () "daily" [] rfl]
  simp [emptyResp, normalizeAggregation, processDataPoints, calculateSummary_nil,
    calculatePeriodComparison, calculateYearOverYear, periodEntry, yearEntry,
    calculateSectorBreakdown, buildSectorMap, fetchEmptyHist]

/-- Witness for C5: with an empty 1-year-shifted fetch the one-year entry is
absent. -/
theorem comparison_omitted_on_empty_witness :
    getIrrigationAnalytics (fun t _ => t) fetchEmptyHist [] 1 none () () "daily" =
      .ok emptyResp ∧
    fetchEmptyHist.comparisonOneYear = .ok [] ∧
    emptyResp.periodComparison.oneYearAgo = none :=
  ⟨getIA_fetchEmptyHist, rfl,
    (comparison_omitted_on_empty (fun t _ => t) fetchEmptyHist [] 1 none () () "daily"
      emptyResp getIA_fetchEmptyHist).1 rfl⟩

/-- Fixture: the current fetch succeeds but every other fetch fails. -/
def fetchDegraded : FetchResults Unit :=
  ⟨.ok [], .error "db down", .error "db down", .error "db down",
    .error "db down", .error "db down"⟩

theorem getIA_fetchDegraded :
    getIrrigationAnalytics (fun t _ => t) fetchDegraded [] 1 none () () "daily" =
      .ok emptyResp := by
  rw [getIrrigationAnalytics_ok (fun t _ => t) fetchDegraded [] 1 none () () "daily" [] rfl]
  simp [emptyResp, normalizeAggregation, processDataPoints, calculateSummary_nil,
    calculatePeriodComparison, calculateYearOverYear, periodEntry, yearEntry,
    calculateSectorBreakdown, fetchDegraded]

/-- Witness for C6: all historical and breakdown fetches failing still
yields a successful response with absent comparisons and empty breakdown. -/
theorem fetch_error_handling_witness :
    fetchDegraded.current = .ok [] ∧
    fetchDegraded.comparisonOneYear = .error "db down" ∧
    (getIrrigationAnalytics (fun t _ => t) fetchDegraded [] 1 none () ()
      "daily").toOption.isSome = true ∧
    emptyResp.periodComparison.oneYearAgo = none ∧
    emptyResp.sectorBreakdown = [] :=
  ⟨rfl, rfl,
    (fetch_error_handling (fun t _ => t) fetchDegraded [] 1 none () () "daily").2.1 [] rfl,
    ((fetch_error_handling (fun t _ => t) fetchDegraded [] 1 none () ()
        "daily").2.2 emptyResp getIA_fetchDegraded).1 "db down" rfl,
    ((fetch_error_handling (fun t _ => t) fetchDegraded [] 1 none () ()
        "daily").2.2 emptyResp getIA_fetchDegraded).2.2.2.2 rfl "db down" rfl⟩

/-- Witness for C10: the empty-store response echoes the request scope. -/
theorem response_echoes_request_witness :
    getIrrigationAnalytics (fun t _ => t) fetchEmptyHist [] 1 none () () "daily" =
      .ok emptyResp ∧
    emptyResp.farmID = 1 :=
  ⟨getIA_fetchEmptyHist,
    (response_echoes_request (fun t _ => t) fetchEmptyHist [] 1 none () () "daily"
      emptyResp getIA_fetchEmptyHist).1⟩

/-- Fixture bucket: sector 2, 100 litres over 60 minutes, real = nominal =
100, one event. -/
def sampleRow : AggregatedDataWithCount Unit := ⟨⟨(), 100, 60, 1, 2, 100, 100⟩, 1⟩

theorem calculateSummary_sample :
    calculateSummary [sampleRow] = ⟨100, 60, 1, 1, 100, 100⟩ := by
  norm_num [calculateSummary, summaryStep, summaryEfficiency, calculateEfficiency,
    sampleRow, round2, round4, goRound]

/-- Fixture: every fetch succeeds with the single sample bucket. -/
def fetchAllOk : FetchResults Unit :=
  ⟨.ok [sampleRow], .ok [sampleRow], .ok [sampleRow], .ok [sampleRow],
    .ok [sampleRow], .ok [sampleRow]⟩

/-- The response computed for `fetchAllOk` (with iteration order [2]). -/
def sampleResp : AnalyticsResponse Unit :=
  ⟨1, none, ⟨(), ()⟩, "daily",
    [⟨(), 100, 60, 1, 1, 100, 100⟩],
    ⟨100, 60, 1, 1, 100, 100⟩,
    ⟨some ⟨⟨(), ()⟩, 100, 1, 1, 0, 0, 0⟩, some ⟨⟨(), ()⟩, 100, 1, 1, 0, 0, 0⟩⟩,
    [⟨2, 100, 1, 1, 100, 100⟩],
    ⟨some ⟨⟨(), ()⟩, 100, 60, 1, 1, 0⟩, some ⟨⟨(), ()⟩, 100, 60, 1, 1, 0⟩⟩⟩

theorem processDataPoints_sample :
    processDataPoints [sampleRow] = [⟨(), 100, 60, 1, 1, 100, 100⟩] := by
  norm_num [processDataPoints, dataPointEfficiency, calculateEfficiency, sampleRow,
    round4, goRound]

theorem buildSectorMap_sample :
    buildSectorMap [sampleRow] = [⟨2, 100, 1, 1, 100, 100⟩] := by
  norm_num [buildSectorMap, insertSectorRow, newSectorBreakdown, summaryEfficiency,
    calculateEfficiency, sampleRow, round4, goRound]

theorem breakdown_sample :
    calculateSectorBreakdown (.ok [sampleRow]) [2] = [⟨2, 100, 1, 1, 100, 100⟩] := by
  simp only [calculateSectorBreakdown, buildSectorMap_sample, List.find?,
    List.filterMap_cons, List.filterMap_nil]
  norm_num [finalizeSectorBreakdown, newSectorBreakdown, summaryEfficiency,
    sampleRow, calculateEfficiency, round2, round4, goRound]

theorem getIA_fetchAllOk :
    getIrrigationAnalytics (fun t _ => t) fetchAllOk [2] 1 none () () "daily" =
      .ok sampleResp := by
  rw [getIrrigationAnalytics_ok (fun t _ => t) fetchAllOk [2] 1 none () () "daily"
    [sampleRow] rfl]
  norm_num [sampleResp, normalizeAggregation, processDataPoints_sample,
    calculateSummary_sample, calculatePeriodComparison, calculateYearOverYear,
    periodEntry, yearEntry, mkPeriodMetrics, mkYearComparison, calculateChangePercent,
    breakdown_sample, fetchAllOk, round2, round4, goRound]

/-- Witness for C7: with identical non-empty historical fetches both the
new-shaped and the legacy one-year entries are present together. -/
theorem yoy_matches_periodComparison_witness :
    fetchAllOk.yoyOneYear = fetchAllOk.comparisonOneYear ∧
    getIrrigationAnalytics (fun t _ => t) fetchAllOk [2] 1 none () () "daily" =
      .ok sampleResp ∧
    sampleResp.periodComparison.oneYearAgo.isSome =
      sampleResp.yearOverYear.oneYearAgo.isSome :=
  ⟨rfl, getIA_fetchAllOk,
    (yoy_matches_periodComparison (fun t _ => t) fetchAllOk [2] 1 none () () "daily"
      sampleResp rfl rfl getIA_fetchAllOk).1⟩

/-- Sum of the real amounts of the buckets belonging to one sector. -/
def sectorRealSum {Time : Type} (data : List (AggregatedDataWithCount Time)) (k : ℕ) : ℚ :=
  ((data.filter (fun item => item.data.irrigationSectorID = k)).map
    (fun item => item.data.realAmount)).sum

/-- Sum of the nominal amounts of the buckets belonging to one sector. -/
def sectorNominalSum {Time : Type} (data : List (AggregatedDataWithCount Time)) (k : ℕ) : ℚ :=
  ((data.filter (fun item => item.data.irrigationSectorID = k)).map
    (fun item => item.data.nominalAmount)).sum

theorem sectorRealSum_append_single {Time : Type}
    (pre : List (AggregatedDataWithCount Time)) (item : AggregatedDataWithCount Time)
    (k : ℕ) :
    sectorRealSum (pre ++ [item]) k =
      sectorRealSum pre k +
        (if item.data.irrigationSectorID = k then item.data.realAmount else 0) := by
  by_cases h : item.data.irrigationSectorID = k <;>
    simp [sectorRealSum, List.filter_append, List.filter_cons, h]

theorem sectorNominalSum_append_single {Time : Type}
    (pre : List (AggregatedDataWithCount Time)) (item : AggregatedDataWithCount Time)
    (k : ℕ) :
    sectorNominalSum (pre ++ [item]) k =
      sectorNominalSum pre k +
        (if item.data.irrigationSectorID = k then item.data.nominalAmount else 0) := by
  by_cases h : item.data.irrigationSectorID = k <;>
    simp [sectorNominalSum, List.filter_append, List.filter_cons, h]

theorem sectorRealSum_eq_zero {Time : Type}
    (pre : List (AggregatedDataWithCount Time)) (k : ℕ)
    (h : ∀ item ∈ pre, item.data.irrigationSectorID ≠ k) : sectorRealSum pre k = 0 := by
  have hf : pre.filter (fun item => item.data.irrigationSectorID = k) = [] := by
    rw [List.filter_eq_nil_iff]
    intro a ha
    simpa using h a ha
  simp [sectorRealSum, hf]

theorem sectorNominalSum_eq_zero {Time : Type}
    (pre : List (AggregatedDataWithCount Time)) (k : ℕ)
    (h : ∀ item ∈ pre, item.data.irrigationSectorID ≠ k) : sectorNominalSum pre k = 0 := by
  have hf : pre.filter (fun item => item.data.irrigationSectorID = k) = [] := by
    rw [List.filter_eq_nil_iff]
    intro a ha
    simpa using h a ha
  simp [sectorNominalSum, hf]

/-- Invariant of the grouping loop: every accumulated entry carries the
exact real/nominal sums of its sector over the processed prefix, and the
entry keys are exactly the sector ids seen so far. -/
def SectorAccInv {Time : Type} (pre : List (AggregatedDataWithCount Time))
    (m : List SectorBreakdown) : Prop :=
  (∀ b ∈ m, b.totalRealAmount = sectorRealSum pre b.sectorID ∧
    b.totalNominalAmount = sectorNominalSum pre b.sectorID) ∧
  (∀ k : ℕ, (∃ b ∈ m, b.sectorID = k) ↔
    ∃ item ∈ pre, item.data.irrigationSectorID = k)

theorem insertSectorRow_inv {Time : Type} {pre : List (AggregatedDataWithCount Time)}
    {m : List SectorBreakdown} (item : AggregatedDataWithCount Time)
    (h : SectorAccInv pre m) : SectorAccInv (pre ++ [item]) (insertSectorRow m item) := by
  obtain ⟨hsum, hkey⟩ := h
  unfold insertSectorRow
  by_cases hex : m.any (fun b => b.sectorID = item.data.irrigationSectorID) = true
  · rw [if_pos hex]
    obtain ⟨b0, hb0, hb0k⟩ : ∃ b ∈ m, b.sectorID = item.data.irrigationSectorID := by
      simpa using hex
    constructor
    · intro b hb
      rw [List.mem_map] at hb
      obtain ⟨b', hb', rfl⟩ := hb
      by_cases hkeq : b'.sectorID = item.data.irrigationSectorID
      · rw [if_pos hkeq]
        have h1 := (hsum b' hb').1
        have h2 := (hsum b' hb').2
        have hsid : (updateSectorBreakdown b' item).sectorID = b'.sectorID := rfl
        constructor
        · rw [hsid, sectorRealSum_append_single, if_pos hkeq.symm]
          show b'.totalRealAmount + item.data.realAmount =
            sectorRealSum pre b'.sectorID + item.data.realAmount
          rw [h1]
        · rw [hsid, sectorNominalSum_append_single, if_pos hkeq.symm]
          show b'.totalNominalAmount + item.data.nominalAmount =
            sectorNominalSum pre b'.sectorID + item.data.nominalAmount
          rw [h2]
      · rw [if_neg hkeq]
        have hne : ¬ item.data.irrigationSectorID = b'.sectorID := fun e => hkeq e.symm
        rw [sectorRealSum_append_single, sectorNominalSum_append_single]
        simp [hne, (hsum b' hb').1, (hsum b' hb').2]
    · intro k
      constructor
      · rintro ⟨b, hb, hbk⟩
        rw [List.mem_map] at hb
        obtain ⟨b', hb', rfl⟩ := hb
        have hbsid : (if b'.sectorID = item.data.irrigationSectorID
            then updateSectorBreakdown b' item else b').sectorID = b'.sectorID := by
          split_ifs <;> rfl
        rw [hbsid] at hbk
        obtain ⟨it, hit, hitk⟩ := (hkey k).mp ⟨b', hb', hbk⟩
        exact ⟨it, List.mem_append_left _ hit, hitk⟩
      · rintro ⟨it, hit, hitk⟩
        rcases List.mem_append.mp hit with h1 | h2
        · obtain ⟨b, hb, hbk⟩ := (hkey k).mpr ⟨it, h1, hitk⟩
          refine ⟨if b.sectorID = item.data.irrigationSectorID
            then updateSectorBreakdown b item else b, List.mem_map_of_mem _ hb, ?_⟩
          split_ifs <;> exact hbk
        · have hii : it = item := by simpa using h2
          subst hii
          refine ⟨if b0.sectorID = it.data.irrigationSectorID
            then updateSectorBreakdown b0 it else b0, List.mem_map_of_mem _ hb0, ?_⟩
          rw [if_pos hb0k]
          show b0.sectorID = k
          exact hb0k.trans hitk
  · rw [if_neg hex]
    have hnone : ∀ b ∈ m, b.sectorID ≠ item.data.irrigationSectorID := by
      intro b hb meq
      exact hex (List.any_eq_true.mpr ⟨b, hb, by simp [meq]⟩)
    have hpre : ∀ it ∈ pre, it.data.irrigationSectorID ≠ item.data.irrigationSectorID := by
      intro it hit e
      obtain ⟨b, hb, hbk⟩ := (hkey item.data.irrigationSectorID).mpr ⟨it, hit, e⟩
      exact hnone b hb hbk
    constructor
    · intro b hb
      rcases List.mem_append.mp hb with h1 | h2
      · have hne : ¬ item.data.irrigationSectorID = b.sectorID :=
          fun e => hnone b h1 e.symm
        rw [sectorRealSum_append_single, sectorNominalSum_append_single]
        simp [hne, (hsum b h1).1, (hsum b h1).2]
      · have hbn : b = newSectorBreakdown item := by simpa using h2
        subst hbn
        rw [sectorRealSum_append_single, sectorNominalSum_append_single]
        have hsid : (newSectorBreakdown item).sectorID = item.data.irrigationSectorID := rfl
        rw [hsid, if_pos rfl, if_pos rfl,
          sectorRealSum_eq_zero pre _ hpre, sectorNominalSum_eq_zero pre _ hpre]
        constructor
        · simp [newSectorBreakdown]
        · simp [newSectorBreakdown]
    · intro k
      constructor
      · rintro ⟨b, hb, hbk⟩
        rcases List.mem_append.mp hb with h1 | h2
        · obtain ⟨it, hit, hitk⟩ := (hkey k).mp ⟨b, h1, hbk⟩
          exact ⟨it, List.mem_append_left _ hit, hitk⟩
        · have hbn : b = newSectorBreakdown item := by simpa using h2
          subst hbn
          exact ⟨item, List.mem_append_right _ (by simp), hbk⟩
      · rintro ⟨it, hit, hitk⟩
        rcases List.mem_append.mp hit with h1 | h2
        · obtain ⟨b, hb, hbk⟩ := (hkey k).mpr ⟨it, h1, hitk⟩
          exact ⟨b, List.mem_append_left _ hb, hbk⟩
        · have hii : it = item := by simpa using h2
          subst hii
          exact ⟨newSectorBreakdown it, List.mem_append_right _ (by simp), hitk⟩

theorem buildSectorMap_inv_aux {Time : Type} (data : List (AggregatedDataWithCount Time)) :
    ∀ (pre : List (AggregatedDataWithCount Time)) (m : List SectorBreakdown),
      SectorAccInv pre m → SectorAccInv (pre ++ data) (data.foldl insertSectorRow m) := by
  induction data with
  | nil => intro pre m h; simpa using h
  | cons item rest ih =>
      intro pre m h
      have h1 := insertSectorRow_inv item h
      have h2 := ih (pre ++ [item]) (insertSectorRow m item) h1
      rw [List.foldl_cons]
      have : pre ++ [item] ++ rest = pre ++ (item :: rest) := by simp
      rwa [this] at h2

/-- The fully built sector map satisfies the accumulation invariant. -/
theorem buildSectorMap_inv {Time : Type} (data : List (AggregatedDataWithCount Time)) :
    SectorAccInv data (buildSectorMap data) := by
  have hnil : SectorAccInv ([] : List (AggregatedDataWithCount Time)) [] := by
    constructor
    · intro b hb; cases hb
    · intro k
      constructor
      · rintro ⟨x, hx, _⟩; cases hx
      · rintro ⟨x, hx, _⟩; cases hx
  have h := buildSectorMap_inv_aux data [] [] hnil
  simpa [buildSectorMap] using h

theorem floor_intCast_add_half (z : ℤ) : Int.floor ((z : ℚ) + 1/2) = z := by
  rw [Int.floor_eq_iff]
  constructor
  · linarith
  · linarith

theorem goRound_intCast (n : ℤ) : goRound ((n : ℚ)) = (n : ℚ) := by
  unfold goRound
  by_cases h : (n : ℚ) < 0
  · rw [if_pos h]
    have he : -(n : ℚ) + 1/2 = ((-n : ℤ) : ℚ) + 1/2 := by push_cast; ring
    rw [he, floor_intCast_add_half]
    push_cast
    ring
  · rw [if_neg h, floor_intCast_add_half]

theorem goRound_eq_intCast (x : ℚ) :
    goRound x =
      (((if x < 0 then -Int.floor (-x + 1/2) else Int.floor (x + 1/2)) : ℤ) : ℚ) := by
  unfold goRound
  split_ifs <;> push_cast <;> ring

/-- Rounding to 4 decimal places is idempotent. -/
theorem round4_idem (x : ℚ) : round4 (round4 x) = round4 x := by
  have h1 : round4 x =
      (((if x * 10000 < 0 then -Int.floor (-(x * 10000) + 1/2)
        else Int.floor (x * 10000 + 1/2)) : ℤ) : ℚ) / 10000 := by
    rw [round4, goRound_eq_intCast]
  rw [h1, round4]
  have h2 : (((if x * 10000 < 0 then -Int.floor (-(x * 10000) + 1/2)
      else Int.floor (x * 10000 + 1/2)) : ℤ) : ℚ) / 10000 * 10000 =
      (((if x * 10000 < 0 then -Int.floor (-(x * 10000) + 1/2)
        else Int.floor (x * 10000 + 1/2)) : ℤ) : ℚ) :=
    div_mul_cancel₀ _ (by norm_num)
  rw [h2, goRound_intCast]

/-- `calculateEfficiency` values are already rounded to 4 decimal places. -/
theorem round4_calculateEfficiency (x y : ℚ) :
    round4 (calculateEfficiency x y) = calculateEfficiency x y := by
  unfold calculateEfficiency
  split_ifs with h
  · exact round4_zero
  · exact round4_idem _

/-- Claim C8 amended (main part): whenever a sector's total nominal amount
is positive, the reported average efficiency is recomputed from the sector's
raw sums, `calculateEfficiency(sum real, sum nominal)` (which already rounds
to 4 decimal places). -/
theorem sectorBreakdown_avgEfficiency_from_totals {Time : Type}
    (data : List (AggregatedDataWithCount Time)) (keyOrder : List ℕ)
    (b : SectorBreakdown)
    (hb : b ∈ calculateSectorBreakdown (.ok data) keyOrder)
    (hpos : 0 < sectorNominalSum data b.sectorID) :
    b.averageEfficiency =
      calculateEfficiency (sectorRealSum data b.sectorID)
        (sectorNominalSum data b.sectorID) := by
  simp only [calculateSectorBreakdown] at hb
  rw [List.mem_map] at hb
  obtain ⟨b', hb', rfl⟩ := hb
  rw [List.mem_filterMap] at hb'
  obtain ⟨k, hk, hfind⟩ := hb'
  have hmem : b' ∈ buildSectorMap data := List.mem_of_find?_eq_some hfind
  have hinv := (buildSectorMap_inv data).1 b' hmem
  have hsid : (finalizeSectorBreakdown b').sectorID = b'.sectorID := by
    unfold finalizeSectorBreakdown
    split_ifs <;> rfl
  rw [hsid] at hpos ⊢
  have hposn : 0 < b'.totalNominalAmount := by rw [hinv.2]; exact hpos
  show round4 ((if 0 < b'.totalNominalAmount then
      { b' with averageEfficiency :=
        calculateEfficiency b'.totalRealAmount b'.totalNominalAmount }
      else b').averageEfficiency) = _
  rw [if_pos hposn]
  show round4 (calculateEfficiency b'.totalRealAmount b'.totalNominalAmount) = _
  rw [round4_calculateEfficiency, hinv.1, hinv.2]

/-- Fixture bucket with no real/nominal split recorded: sector 1, 10 litres
over 10 minutes, real = nominal = 0, one event. -/
def fallbackRow : AggregatedDataWithCount Unit := ⟨⟨(), 10, 10, 1, 1, 0, 0⟩, 1⟩

theorem buildSectorMap_fallbackRow :
    buildSectorMap [fallbackRow] = [⟨1, 10, 1, 1, 0, 0⟩] := by
  norm_num [buildSectorMap, insertSectorRow, newSectorBreakdown, summaryEfficiency,
    calculateEfficiency, fallbackRow, round4, goRound]

theorem breakdown_fallbackRow :
    calculateSectorBreakdown (.ok [fallbackRow]) [1] = [⟨1, 10, 1, 1, 0, 0⟩] := by
  simp only [calculateSectorBreakdown, buildSectorMap_fallbackRow, List.find?,
    List.filterMap_cons, List.filterMap_nil]
  norm_num [finalizeSectorBreakdown, newSectorBreakdown, summaryEfficiency,
    fallbackRow, calculateEfficiency, round2, round4, goRound]

/-- Claim C8 as stated: every reported sector average efficiency equals the
4-decimal rounding of (sum of real amounts) / (sum of nominal amounts). -/
def ClaimC8 : Prop :=
  ∀ (data : List (AggregatedDataWithCount Unit)) (keyOrder : List ℕ),
    ValidKeyOrder data keyOrder →
    ∀ b ∈ calculateSectorBreakdown (.ok data) keyOrder,
      b.averageEfficiency =
        round4 (sectorRealSum data b.sectorID / sectorNominalSum data b.sectorID)

/-- Counterexample to C8: a sector whose only bucket has real = nominal = 0
but water volume 10 over 10 minutes reports average efficiency 1 — the
first-bucket duration fallback value, never recomputed because the total
nominal amount is not positive — while the claimed totals formula yields 0. -/
theorem sectorBreakdown_claim_false : ¬ ClaimC8 := by
  intro h
  have hvalid : ValidKeyOrder [fallbackRow] [1] := by
    constructor
    · simp
    · intro k
      rw [buildSectorMap_fallbackRow]
      simp
  have hmem : (⟨1, 10, 1, 1, 0, 0⟩ : SectorBreakdown) ∈
      calculateSectorBreakdown (.ok [fallbackRow]) [1] := by
    rw [breakdown_fallbackRow]
    exact List.mem_singleton.mpr rfl
  have hc := h [fallbackRow] [1] hvalid _ hmem
  norm_num [sectorRealSum, sectorNominalSum, fallbackRow, round4, goRound] at hc

theorem sample_entry_mem :
    (⟨2, 100, 1, 1, 100, 100⟩ : SectorBreakdown) ∈
      calculateSectorBreakdown (.ok [sampleRow]) [2] := by
  rw [breakdown_sample]
  exact List.mem_singleton.mpr rfl

theorem sample_nominal_pos : (0 : ℚ) < sectorNominalSum [sampleRow] 2 := by
  norm_num [sectorNominalSum, sampleRow]

/-- Witness for C8 (amended): the sample sector has positive total nominal
amount and its reported average efficiency is the totals ratio. -/
theorem sectorBreakdown_from_totals_witness :
    (⟨2, 100, 1, 1, 100, 100⟩ : SectorBreakdown) ∈
      calculateSectorBreakdown (.ok [sampleRow]) [2] ∧
    (0 : ℚ) < sectorNominalSum [sampleRow] 2 ∧
    (⟨2, 100, 1, 1, 100, 100⟩ : SectorBreakdown).averageEfficiency =
      calculateEfficiency (sectorRealSum [sampleRow] 2) (sectorNominalSum [sampleRow] 2) :=
  ⟨sample_entry_mem, sample_nominal_pos,
    sectorBreakdown_avgEfficiency_from_totals [sampleRow] [2] _
      sample_entry_mem sample_nominal_pos⟩

/-- Claim C9 amended (main part): two runs over the same fetched rows with
different (but legal) map iteration orders agree on every response field,
with the sector breakdown equal up to a permutation. -/
theorem responses_equal_up_to_breakdown_order {Time : Type} (addYears : Time → ℤ → Time)
    (fetch : FetchResults Time) (ord1 ord2 : List ℕ) (farmID : ℕ)
    (sectorID : Option ℕ) (startDate endDate : Time) (aggregation : String)
    (data : List (AggregatedDataWithCount Time)) (r1 r2 : AnalyticsResponse Time)
    (hdata : fetch.breakdownAll = .ok data)
    (hv1 : ValidKeyOrder data ord1) (hv2 : ValidKeyOrder data ord2)
    (h1 : getIrrigationAnalytics addYears fetch ord1 farmID sectorID startDate
      endDate aggregation = .ok r1)
    (h2 : getIrrigationAnalytics addYears fetch ord2 farmID sectorID startDate
      endDate aggregation = .ok r2) :
    r1.farmID = r2.farmID ∧ r1.sectorID = r2.sectorID ∧ r1.period = r2.period ∧
    r1.aggregation = r2.aggregation ∧ r1.data = r2.data ∧ r1.summary = r2.summary ∧
    r1.periodComparison = r2.periodComparison ∧ r1.yearOverYear = r2.yearOverYear ∧
    List.Perm r1.sectorBreakdown r2.sectorBreakdown := by
  cases hc : fetch.current with
  | error msg =>
      rw [getIrrigationAnalytics_error addYears fetch ord1 farmID sectorID
        startDate endDate aggregation msg hc] at h1
      exact absurd h1 (by simp)
  | ok currentData =>
      rw [getIrrigationAnalytics_ok addYears fetch ord1 farmID sectorID
        startDate endDate aggregation currentData hc] at h1
      rw [getIrrigationAnalytics_ok addYears fetch ord2 farmID sectorID
        startDate endDate aggregation currentData hc] at h2
      obtain rfl := (Except.ok.inj h1).symm
      obtain rfl := (Except.ok.inj h2).symm
      refine ⟨rfl, rfl, rfl, rfl, rfl, rfl, rfl, rfl, ?_⟩
      cases sectorID with
      | some s => exact List.Perm.refl _
      | none =>
          have hperm : List.Perm ord1 ord2 := by
            obtain ⟨hn1, hm1⟩ := hv1
            obtain ⟨hn2, hm2⟩ := hv2
            rw [List.perm_ext_iff_of_nodup hn1 hn2]
            intro k
            exact (hm1 k).trans (hm2 k).symm
          show List.Perm (calculateSectorBreakdown fetch.breakdownAll ord1)
            (calculateSectorBreakdown fetch.breakdownAll ord2)
          rw [hdata]
          simp only [calculateSectorBreakdown]
          exact List.Perm.map _ (List.Perm.filterMap _ hperm)

/-- Fixture bucket for sector 1: 100 litres over 60 minutes, real = nominal
= 100, one event. -/
def rowS1 : AggregatedDataWithCount Unit := ⟨⟨(), 100, 60, 1, 1, 100, 100⟩, 1⟩

/-- Fixture bucket for sector 2: 50 litres over 30 minutes, real 25,
nominal 50, one event. -/
def rowS2 : AggregatedDataWithCount Unit := ⟨⟨(), 50, 30, 1, 2, 50, 25⟩, 1⟩

/-- Fixture data set covering two sectors. -/
def twoSectorData : List (AggregatedDataWithCount Unit) := [rowS1, rowS2]

/-- Fixture: the unscoped breakdown fetch sees both sectors; the other
fetches see no data. -/
def fetchTwoSectors : FetchResults Unit :=
  ⟨.ok [], .ok [], .ok [], .ok twoSectorData, .ok [], .ok []⟩

theorem buildSectorMap_two :
    buildSectorMap twoSectorData =
      [⟨1, 100, 1, 1, 100, 100⟩, ⟨2, 50, 1, 1/2, 25, 50⟩] := by
  norm_num [buildSectorMap, insertSectorRow, newSectorBreakdown, summaryEfficiency,
    calculateEfficiency, twoSectorData, rowS1, rowS2, round4, goRound]

theorem breakdown_two_12 :
    calculateSectorBreakdown (.ok twoSectorData) [1, 2] =
      [⟨1, 100, 1, 1, 100, 100⟩, ⟨2, 50, 1, 1/2, 25, 50⟩] := by
  simp only [calculateSectorBreakdown, buildSectorMap_two, List.find?,
    List.filterMap_cons, List.filterMap_nil]
  norm_num [finalizeSectorBreakdown, newSectorBreakdown, summaryEfficiency,
    rowS1, rowS2, calculateEfficiency, round2, round4, goRound]

theorem breakdown_two_21 :
    calculateSectorBreakdown (.ok twoSectorData) [2, 1] =
      [⟨2, 50, 1, 1/2, 25, 50⟩, ⟨1, 100, 1, 1, 100, 100⟩] := by
  simp only [calculateSectorBreakdown, buildSectorMap_two, List.find?,
    List.filterMap_cons, List.filterMap_nil]
  norm_num [finalizeSectorBreakdown, newSectorBreakdown, summaryEfficiency,
    rowS1, rowS2, calculateEfficiency, round2, round4, goRound]

theorem valid_12 : ValidKeyOrder twoSectorData [1, 2] := by
  constructor
  · simp
  · intro k
    rw [buildSectorMap_two]
    simp

theorem valid_21 : ValidKeyOrder twoSectorData [2, 1] := by
  constructor
  · simp
  · intro k
    rw [buildSectorMap_two]
    simp
    tauto

/-- Claim C9 as stated: two calls with identical arguments over identical
fetched rows return identical responses, whatever legal map iteration
orders the two runs happen to use. -/
def ClaimC9 : Prop :=
  ∀ (addYears : Unit → ℤ → Unit) (fetch : FetchResults Unit) (ord1 ord2 : List ℕ)
    (farmID : ℕ) (sectorID : Option ℕ) (startDate endDate : Unit)
    (aggregation : String) (data : List (AggregatedDataWithCount Unit)),
    fetch.breakdownAll = .ok data →
    ValidKeyOrder data ord1 → ValidKeyOrder data ord2 →
    getIrrigationAnalytics addYears fetch ord1 farmID sectorID startDate endDate
      aggregation =
      getIrrigationAnalytics addYears fetch ord2 farmID sectorID startDate endDate
        aggregation

/-- Counterexample to C9: with two sectors in the window, the iteration
orders [1, 2] and [2, 1] are both legal and produce sector breakdowns in
different order, so the two responses are not identical. -/
theorem idempotence_claim_false : ¬ ClaimC9 := by
  intro h
  have heq := h (fun t _ => t) fetchTwoSectors [1, 2] [2, 1] 1 none () () "daily"
    twoSectorData rfl valid_12 valid_21
  rw [getIrrigationAnalytics_ok (fun t _ => t) fetchTwoSectors [1, 2] 1 none () ()
      "daily" [] rfl,
    getIrrigationAnalytics_ok (fun t _ => t) fetchTwoSectors [2, 1] 1 none () ()
      "daily" [] rfl] at heq
  have hbd := congrArg AnalyticsResponse.sectorBreakdown (Except.ok.inj heq)
  simp [fetchTwoSectors, breakdown_two_12, breakdown_two_21] at hbd

/-- The response computed for `fetchTwoSectors` under iteration order `ord`. -/
def respTwoSectors (ord : List ℕ) : AnalyticsResponse Unit :=
  { farmID := 1
    sectorID := none
    period := ⟨(), ()⟩
    aggregation := normalizeAggregation "daily"
    data := processDataPoints ([] : List (AggregatedDataWithCount Unit))
    summary := calculateSummary ([] : List (AggregatedDataWithCount Unit))
    periodComparison := calculatePeriodComparison (fun t _ => t) () ()
      (calculateSummary ([] : List (AggregatedDataWithCount Unit)))
      fetchTwoSectors.comparisonOneYear fetchTwoSectors.comparisonTwoYears
    sectorBreakdown := calculateSectorBreakdown fetchTwoSectors.breakdownAll ord
    yearOverYear := calculateYearOverYear (fun t _ => t) () ()
      (calculateSummary ([] : List (AggregatedDataWithCount Unit)))
      fetchTwoSectors.yoyOneYear fetchTwoSectors.yoyTwoYears }

theorem getIA_twoSectors (ord : List ℕ) :
    getIrrigationAnalytics (fun t _ => t) fetchTwoSectors ord 1 none () () "daily" =
      .ok (respTwoSectors ord) := by
  rw [getIrrigationAnalytics_ok (fun t _ => t) fetchTwoSectors ord 1 none () ()
    "daily" [] rfl]
  rfl

/-- Witness for C9 (amended): the two-sector fixture run under both orders
yields breakdowns that are permutations of each other. -/
theorem responses_equal_witness :
    fetchTwoSectors.breakdownAll = .ok twoSectorData ∧
    List.Perm (respTwoSectors [1, 2]).sectorBreakdown
      (respTwoSectors [2, 1]).sectorBreakdown :=
  ⟨rfl,
    (responses_equal_up_to_breakdown_order (fun t _ => t) fetchTwoSectors [1, 2] [2, 1]
      1 none () () "daily" twoSectorData (respTwoSectors [1, 2]) (respTwoSectors [2, 1])
      rfl valid_12 valid_21 (getIA_twoSectors [1, 2])
      (getIA_twoSectors [2, 1])).2.2.2.2.2.2.2.2⟩
